import Mathlib

/-!
Verification of the matali-pricing core against its specification.

The Python sources are shallowly embedded: currency and percentage values
(Python floats) are modelled as exact rationals (ℚ), pandas tables as lists
of records, Python dicts keyed by strings as association lists, and
`float('inf')` by an explicit constructor.  Every definition mirrors one
function of the repository; the file then proves or refutes the frozen
claims about them.
-/

/-! ## Generic helpers: substring matching and Python rounding -/

/-- Occurrence of a character pattern inside a character list
(the semantics of Python's `pat in s`). -/
def containsChars (pat : List Char) : List Char → Bool
  | [] => pat.isEmpty
  | c :: rest => pat.isPrefixOf (c :: rest) || containsChars pat rest

/-- Characters of a string, lower-cased (ASCII case folding; the Arabic
labels used by the sources have no case). -/
def lowerChars (s : String) : List Char := s.data.map Char.toLower

/-- Case-insensitive substring test: the semantics of pandas
`Series.str.contains(pat, case=False)` for a literal (regex-free) pattern. -/
def containsSub (hay pat : String) : Bool := containsChars (lowerChars pat) (lowerChars hay)

/-- Case-insensitive match against a regex alternation `p1|p2|...` of literal
words, as used by the sources in `str.contains('تجهيز|Fulfillment', case=False)`. -/
def matchesAny (hay : String) (pats : List String) : Bool :=
  pats.any (fun p => containsSub hay p)

/-- Round-half-to-even on ℚ, the idealization of Python's `round` on floats. -/
def roundHalfEven (q : ℚ) : ℤ :=
  if q - ⌊q⌋ < 1/2 then ⌊q⌋
  else if q - ⌊q⌋ > 1/2 then ⌊q⌋ + 1
  else if ⌊q⌋ % 2 = 0 then ⌊q⌋ else ⌊q⌋ + 1

/-- Python `round(x, 2)` idealized on ℚ. -/
def round2 (q : ℚ) : ℚ := (roundHalfEven (q * 100) : ℚ) / 100

/-- Python `round(x, 1)` idealized on ℚ. -/
def round1 (q : ℚ) : ℚ := (roundHalfEven (q * 10) : ℚ) / 10

theorem roundHalfEven_sub_le (q : ℚ) : |(roundHalfEven q : ℚ) - q| ≤ 1/2 := by
  unfold roundHalfEven
  have h0 : (⌊q⌋ : ℚ) ≤ q := Int.floor_le q
  have h1 : q < (⌊q⌋ : ℚ) + 1 := Int.lt_floor_add_one q
  split_ifs with hlt hgt hev <;>
    · rw [abs_le]
      push_cast
      constructor <;> linarith

theorem round2_sub_le (q : ℚ) : |round2 q - q| ≤ 1/200 := by
  unfold round2
  have h := roundHalfEven_sub_le (q * 100)
  have e : (roundHalfEven (q * 100) : ℚ) / 100 - q
      = ((roundHalfEven (q * 100) : ℚ) - q * 100) / 100 := by ring
  rw [e, abs_div, abs_of_pos (show (0:ℚ) < 100 by norm_num)]
  linarith

theorem roundHalfEven_nonneg {q : ℚ} (h : 0 ≤ q) : 0 ≤ roundHalfEven q := by
  unfold roundHalfEven
  have h0 : (0 : ℤ) ≤ ⌊q⌋ := Int.floor_nonneg.mpr h
  split_ifs <;> omega

theorem round2_nonneg {q : ℚ} (h : 0 ≤ q) : 0 ≤ round2 q := by
  unfold round2
  have := roundHalfEven_nonneg (show (0:ℚ) ≤ q * 100 by positivity)
  positivity

/-! ## FinancialEngine.suggest_price (src/financial_engine.py, lines 281-317) -/

/-- The dict returned by `FinancialEngine.suggest_price`: its five keys are
`cost`, `target_margin_pct`, `suggested_price`, `profit_per_order` and
`actual_margin_pct`.  No other key (in particular, no warning flag) exists. -/
structure PricingResult where
  cost : ℚ
  target_margin_pct : ℚ
  suggested_price : ℚ
  profit_per_order : ℚ
  actual_margin_pct : ℚ
deriving Repr, DecidableEq

/-- Embedding of `FinancialEngine.suggest_price`:
`margin_decimal = target_margin / 100`;
`suggested_price = cost / (1 - margin_decimal) if margin_decimal < 1 else cost * 2`;
`profit = price - cost`; `actual_margin = profit / price * 100 if price > 0 else 0`. -/
def suggest_price (cost_per_order target_margin : ℚ) : PricingResult :=
  let margin_decimal := target_margin / 100
  let suggested_price :=
    if margin_decimal < 1 then cost_per_order / (1 - margin_decimal) else cost_per_order * 2
  let profit_per_order := suggested_price - cost_per_order
  let actual_margin :=
    if suggested_price > 0 then profit_per_order / suggested_price * 100 else 0
  { cost := cost_per_order
    target_margin_pct := target_margin
    suggested_price := suggested_price
    profit_per_order := profit_per_order
    actual_margin_pct := actual_margin }

/-- C1: for every unit cost ≥ 0 and target margin `m` with `0 ≤ m < 100`,
`suggest_price` returns a price with `price × (1 − m/100) = cost` (exactly, in
the rational idealization of float arithmetic), `profit_per_order =
price − cost`, and `actual_margin_pct = profit/price × 100` when the price is
positive and `0` when the price is `0`. -/
theorem suggest_price_margin_inversion (c m : ℚ) (hc : 0 ≤ c) (hm0 : 0 ≤ m) (hm : m < 100) :
    (suggest_price c m).suggested_price * (1 - m / 100) = c ∧
    (suggest_price c m).profit_per_order = (suggest_price c m).suggested_price - c ∧
    (0 < (suggest_price c m).suggested_price →
      (suggest_price c m).actual_margin_pct =
        (suggest_price c m).profit_per_order / (suggest_price c m).suggested_price * 100) ∧
    ((suggest_price c m).suggested_price = 0 → (suggest_price c m).actual_margin_pct = 0) := by
  have hdec : m / 100 < 1 := by
    rw [div_lt_one (by norm_num : (0:ℚ) < 100)]; exact hm
  have hne : 1 - m / 100 ≠ 0 := by
    have : 0 < 1 - m / 100 := by linarith
    exact ne_of_gt this
  have hprice : (suggest_price c m).suggested_price = c / (1 - m / 100) := by
    simp only [suggest_price, if_pos hdec]
  have hprofit : (suggest_price c m).profit_per_order
      = (suggest_price c m).suggested_price - c := rfl
  have hmarg : (suggest_price c m).actual_margin_pct =
      if (suggest_price c m).suggested_price > 0
      then (suggest_price c m).profit_per_order / (suggest_price c m).suggested_price * 100
      else 0 := rfl
  refine ⟨?_, hprofit, ?_, ?_⟩
  · rw [hprice]; exact div_mul_cancel₀ c hne
  · intro hpos; rw [hmarg, if_pos hpos]
  · intro h0; rw [hmarg, h0]; norm_num

/-- Witness for C1 at the concrete input `(cost, margin) = (8, 20)`:
price `10`, and `10 × (1 − 20/100) = 8`. -/
theorem suggest_price_margin_inversion_witness :
    (0:ℚ) ≤ 8 ∧ (0:ℚ) ≤ 20 ∧ (20:ℚ) < 100 ∧
    (suggest_price 8 20).suggested_price * (1 - 20 / 100) = 8 := by
  refine ⟨by norm_num, by norm_num, by norm_num, ?_⟩
  exact (suggest_price_margin_inversion 8 20 (by norm_num) (by norm_num) (by norm_num)).1

/-- C5 counterexample: the fallback result for `target_margin ≥ 100` carries no
degraded-estimate flag.  The result dict has exactly the five numeric keys of
`PricingResult`; at `(cost, margin) = (10, 150)` all of its computed output
components (`suggested_price`, `profit_per_order`, `actual_margin_pct`) are
identical to those of the normal result `suggest_price 10 50`, so nothing in
the returned values distinguishes the degraded estimate from a normal one —
only the echoed input `target_margin_pct` differs. -/
theorem suggest_price_no_degraded_flag :
    (100:ℚ) ≤ 150 ∧ (0:ℚ) ≤ 50 ∧ (50:ℚ) < 100 ∧
    (suggest_price 10 150).suggested_price = (suggest_price 10 50).suggested_price ∧
    (suggest_price 10 150).profit_per_order = (suggest_price 10 50).profit_per_order ∧
    (suggest_price 10 150).actual_margin_pct = (suggest_price 10 50).actual_margin_pct := by
  refine ⟨by norm_num, by norm_num, by norm_num, ?_, ?_, ?_⟩ <;>
    · unfold suggest_price
      norm_num

/-- C5 as amended: for every unit cost ≥ 0 and every target margin ≥ 100,
`suggest_price` does not fail and falls back to `price = cost × 2`, which is
finite and non-negative; but the result carries no degraded-estimate flag
(see the counterexample) — it is distinguishable from a normal result only
through the echoed `target_margin_pct` field, which the function always copies
from its input. -/
theorem suggest_price_fallback (c m : ℚ) (hc : 0 ≤ c) (hm : 100 ≤ m) :
    (suggest_price c m).suggested_price = c * 2 ∧
    0 ≤ (suggest_price c m).suggested_price ∧
    (suggest_price c m).target_margin_pct = m := by
  have hdec : ¬ (m / 100 < 1) := by
    rw [not_lt, le_div_iff₀ (by norm_num : (0:ℚ) < 100)]; linarith
  have hprice : (suggest_price c m).suggested_price = c * 2 := by
    simp only [suggest_price, if_neg hdec]
  exact ⟨hprice, by rw [hprice]; linarith, rfl⟩

/-- Witness for the amended C5 at `(cost, margin) = (10, 150)`: price `20`. -/
theorem suggest_price_fallback_witness :
    (0:ℚ) ≤ 10 ∧ (100:ℚ) ≤ 150 ∧ (suggest_price 10 150).suggested_price = 10 * 2 := by
  exact ⟨by norm_num, by norm_num, (suggest_price_fallback 10 150 (by norm_num) (by norm_num)).1⟩

/-! ## UnifiedPricingEngine._get_customer_tier (src/unified_pricing_engine.py, lines 626-637) -/

/-- Embedding of `UnifiedPricingEngine._get_customer_tier`: the cascade of strict
`margin > 30 / 20 / 10 / 0` tests. -/
def _get_customer_tier (margin : ℚ) : String :=
  if margin > 30 then "VIP"
  else if margin > 20 then "Premium"
  else if margin > 10 then "Good"
  else if margin > 0 then "Standard"
  else "Loss"

/-- C6: customer tier classification is a total function of the margin: every
rational margin maps to exactly one of VIP (margin > 30), Premium
(20 < margin ≤ 30), Good (10 < margin ≤ 20), Standard (0 < margin ≤ 10) and
Loss (margin ≤ 0), with the boundary values 30, 20, 10 and 0 falling into the
lower tier of each pair. -/
theorem customer_tier_total (m : ℚ) :
    (30 < m → _get_customer_tier m = "VIP") ∧
    (20 < m ∧ m ≤ 30 → _get_customer_tier m = "Premium") ∧
    (10 < m ∧ m ≤ 20 → _get_customer_tier m = "Good") ∧
    (0 < m ∧ m ≤ 10 → _get_customer_tier m = "Standard") ∧
    (m ≤ 0 → _get_customer_tier m = "Loss") ∧
    (_get_customer_tier m = "VIP" ∨ _get_customer_tier m = "Premium" ∨
     _get_customer_tier m = "Good" ∨ _get_customer_tier m = "Standard" ∨
     _get_customer_tier m = "Loss") := by
  unfold _get_customer_tier
  split_ifs with h1 h2 h3 h4 <;>
    refine ⟨?_, ?_, ?_, ?_, ?_, by simp⟩ <;>
    · intro h
      first
      | rfl
      | (exfalso; push_neg at *
         first
         | linarith
         | (obtain ⟨ha, hb⟩ := h; linarith))

/-- Witness for C6 at the boundary inputs 31, 30, 20, 10 and 0. -/
theorem customer_tier_total_witness :
    _get_customer_tier 31 = "VIP" ∧ _get_customer_tier 30 = "Premium" ∧
    _get_customer_tier 20 = "Good" ∧ _get_customer_tier 10 = "Standard" ∧
    _get_customer_tier 0 = "Loss" :=
  ⟨(customer_tier_total 31).1 (by norm_num),
   (customer_tier_total 30).2.1 ⟨by norm_num, by norm_num⟩,
   (customer_tier_total 20).2.2.1 ⟨by norm_num, by norm_num⟩,
   (customer_tier_total 10).2.2.2.1 ⟨by norm_num, by norm_num⟩,
   (customer_tier_total 0).2.2.2.2.1 (by norm_num)⟩

/-! ## G&A overhead allocation
(src/unified_pricing_engine.py, `calculate_advanced_cost_allocation`, lines 485-490) -/

/-- The per-row G&A allocation of `calculate_advanced_cost_allocation`:
`capacity["gna_alloc"] = (capacity[col] / total_capacity) * cost_gna` when
`total_capacity > 0`, else the whole column is `0`. -/
def gna_allocations (capacities : List ℚ) (cost_gna : ℚ) : List ℚ :=
  let total_capacity := capacities.sum
  if total_capacity > 0 then
    capacities.map (fun cap => cap / total_capacity * cost_gna)
  else
    capacities.map (fun _ => 0)

/-- C3: each service's overhead share is `(capacity / Σ capacities) ×
total overhead`; when the capacity sum is positive the shares sum exactly to
the total overhead cost, and when the capacity sum is 0 every share is 0 (the
division branch is never taken). -/
theorem gna_allocation_correct (caps : List ℚ) (G : ℚ) :
    (0 < caps.sum →
      gna_allocations caps G = caps.map (fun cap => cap / caps.sum * G) ∧
      (gna_allocations caps G).sum = G) ∧
    (caps.sum = 0 → ∀ a ∈ gna_allocations caps G, a = 0) := by
  constructor
  · intro hpos
    have hmap : gna_allocations caps G = caps.map (fun cap => cap / caps.sum * G) := by
      unfold gna_allocations
      rw [if_pos hpos]
    refine ⟨hmap, ?_⟩
    rw [hmap]
    have hne : caps.sum ≠ 0 := ne_of_gt hpos
    have : ∀ l : List ℚ, (l.map (fun cap => cap / caps.sum * G)).sum
        = l.sum / caps.sum * G := by
      intro l
      induction l with
      | nil => simp
      | cons a t ih =>
        simp only [List.map_cons, List.sum_cons, ih]
        ring
    rw [this caps, div_self hne, one_mul]
  · intro hzero a ha
    unfold gna_allocations at ha
    rw [if_neg (by rw [hzero]; exact lt_irrefl 0)] at ha
    simp only [List.mem_map] at ha
    obtain ⟨_, _, h⟩ := ha
    exact h.symm

/-- Witness for C3 on the concrete table `[100, 300]` with overhead 50:
allocations `[12.5, 37.5]` summing to 50; and on `[0, 0]` all shares are 0. -/
theorem gna_allocation_correct_witness :
    (0:ℚ) < ([100, 300] : List ℚ).sum ∧
    (gna_allocations [100, 300] 50).sum = 50 ∧
    (([0, 0] : List ℚ).sum = 0 ∧ ∀ a ∈ gna_allocations [0, 0] 50, a = 0) := by
  refine ⟨by norm_num, ((gna_allocation_correct [100, 300] 50).1 (by norm_num)).2, by norm_num,
    (gna_allocation_correct [0, 0] 50).2 (by norm_num)⟩

/-! ## Cost per capacity unit
(src/app.py, `calc_monthly_capacity` / `calc_cost_per_unit`, lines 114-129;
src/unified_pricing_engine.py, `integrate_capacity_data`, lines 125-126) -/

/-- Embedding of `calc_monthly_capacity` (src/app.py): static capacity, or
`daily_capacity × working_days`. -/
def calc_monthly_capacity (capacity_type : String)
    (daily_capacity working_days static_capacity : ℚ) : ℚ :=
  if capacity_type = "static" then static_capacity else daily_capacity * working_days

/-- Embedding of `calc_cost_per_unit` (src/app.py): `monthly_cost / monthly_capacity` when
the capacity is positive, else `0.0`. -/
def calc_cost_per_unit (monthly_cost monthly_capacity : ℚ) : ℚ :=
  if monthly_capacity > 0 then monthly_cost / monthly_capacity else 0

/-- The per-row `cost_per_unit` of `UnifiedPricingEngine.integrate_capacity_data`:
`monthly_cost / capacity_per_month.replace(0, 1)` — a zero capacity is replaced
by 1 before dividing. -/
def integrate_capacity_cost_per_unit (monthly_cost capacity_per_month : ℚ) : ℚ :=
  monthly_cost / (if capacity_per_month = 0 then 1 else capacity_per_month)

/-- C4 counterexample: for a capacity record with `monthly_capacity = 0` and
`monthly_cost = 500`, `integrate_capacity_data` derives `cost_per_unit = 500`
— the full monthly cost, not 0. -/
theorem integrate_capacity_zero_counterexample :
    integrate_capacity_cost_per_unit 500 0 = 500 ∧ (500 : ℚ) ≠ 0 := by
  constructor
  · unfold integrate_capacity_cost_per_unit
    norm_num
  · norm_num

/-- C4 as amended: `calc_cost_per_unit` (src/app.py) returns 0 on zero
capacity and `monthly_cost / monthly_capacity` on positive capacity, with no
division by zero; but `integrate_capacity_data` (src/unified_pricing_engine.py)
instead replaces a zero capacity by 1, so its derived `cost_per_unit` equals
the full `monthly_cost` when the capacity is 0 (and `monthly_cost / capacity`
otherwise). -/
theorem cost_per_unit_zero_guard (cost cap : ℚ) :
    calc_cost_per_unit cost 0 = 0 ∧
    (0 < cap → calc_cost_per_unit cost cap = cost / cap) ∧
    integrate_capacity_cost_per_unit cost 0 = cost ∧
    (cap ≠ 0 → integrate_capacity_cost_per_unit cost cap = cost / cap) := by
  refine ⟨?_, ?_, ?_, ?_⟩
  · unfold calc_cost_per_unit; norm_num
  · intro h; unfold calc_cost_per_unit; rw [if_pos h]
  · unfold integrate_capacity_cost_per_unit; norm_num
  · intro h; unfold integrate_capacity_cost_per_unit; rw [if_neg h]

/-- Witness for the amended C4 at `(cost, cap) = (500, 4)`. -/
theorem cost_per_unit_zero_guard_witness :
    (0:ℚ) < 4 ∧ calc_cost_per_unit 500 4 = 500 / 4 ∧
    (4:ℚ) ≠ 0 ∧ integrate_capacity_cost_per_unit 500 4 = 500 / 4 :=
  ⟨by norm_num, (cost_per_unit_zero_guard 500 4).2.1 (by norm_num),
   by norm_num, (cost_per_unit_zero_guard 500 4).2.2.2 (by norm_num)⟩

/-! ## Break-even analysis
(src/cma_pricing_model.py, `CMAPricingModel.calculate_break_even`, lines 63-79;
src/advanced_pricing_model.py, `_analyze_scenario`, lines 226-227) -/

/-- The success dict of `CMAPricingModel.calculate_break_even`. -/
structure BreakEvenResult where
  break_even_units : ℚ
  break_even_revenue : ℚ
  contribution_margin : ℚ
  margin_of_safety_units : ℚ
  margin_of_safety_percentage : ℚ
deriving Repr, DecidableEq

/-- Embedding of `CMAPricingModel.calculate_break_even`, as a function of the cost data
entered through `input_cost_data` and the selling price.  The source returns
an `{'error': ...}` dict when the contribution margin is non-positive, which
is modelled by `Except.error`. -/
def calculate_break_even (variable_cost_per_unit total_fixed_cost expected_units_sold
    selling_price : ℚ) : Except String BreakEvenResult :=
  let contribution_margin := selling_price - variable_cost_per_unit
  if contribution_margin ≤ 0 then
    .error "سعر البيع أقل من التكلفة المتغيرة"
  else
    let break_even_units := total_fixed_cost / contribution_margin
    let break_even_revenue := break_even_units * selling_price
    .ok
      { break_even_units := round2 break_even_units
        break_even_revenue := round2 break_even_revenue
        contribution_margin := round2 contribution_margin
        margin_of_safety_units := expected_units_sold - break_even_units
        margin_of_safety_percentage :=
          if expected_units_sold > 0 then
            round2 ((expected_units_sold - break_even_units) / expected_units_sold * 100)
          else 0 }

/-- A Python float that is either an ordinary (rational) value or `inf`. -/
inductive FloatVal where
  | finite (q : ℚ)
  | inf
deriving Repr, DecidableEq

/-- The `break_even` computation of `AdvancedPricingModel._analyze_scenario`
(line 227): `total_fixed_costs / (base_price - variable_cost) if
(base_price - variable_cost) > 0 else float('inf')`. -/
def analyze_scenario_break_even (total_fixed_costs variable_cost_per_unit
    base_price : ℚ) : FloatVal :=
  if base_price - variable_cost_per_unit > 0 then
    .finite (total_fixed_costs / (base_price - variable_cost_per_unit))
  else
    .inf

/-- C8 counterexample: at `total_fixed_costs = 100`, `variable_cost = 10`,
`base_price = 5` (price below variable cost), `_analyze_scenario` reports
`break_even_point = float('inf')` — an infinite break-even figure is returned
with no error signalled, contradicting the claim. -/
theorem break_even_inf_counterexample :
    analyze_scenario_break_even 100 10 5 = FloatVal.inf ∧ (5:ℚ) ≤ 10 := by
  constructor
  · unfold analyze_scenario_break_even
    norm_num
  · norm_num

/-- C8 as amended: `CMAPricingModel.calculate_break_even` signals an error
result (never a numeric break-even figure) whenever `price ≤ variable cost`,
and for `price > variable cost` (and non-negative fixed cost) returns
`break_even_units` equal to `total_fixed_cost / (price − variable_cost)` up to
the `round(..., 2)` applied by the source (within `1/200`) and never negative;
but `AdvancedPricingModel._analyze_scenario` does not signal an error: it
returns the finite quotient when the contribution margin is positive and
`float('inf')` otherwise. -/
theorem break_even_behavior (vc fc eu p : ℚ) (hfc : 0 ≤ fc) :
    (p ≤ vc → ∃ msg, calculate_break_even vc fc eu p = .error msg) ∧
    (vc < p →
      ∃ r, calculate_break_even vc fc eu p = .ok r ∧
        r.break_even_units = round2 (fc / (p - vc)) ∧
        |r.break_even_units - fc / (p - vc)| ≤ 1/200 ∧
        0 ≤ r.break_even_units) ∧
    (vc < p → analyze_scenario_break_even fc vc p = .finite (fc / (p - vc))) ∧
    (p ≤ vc → analyze_scenario_break_even fc vc p = .inf) := by
  refine ⟨?_, ?_, ?_, ?_⟩
  · intro h
    refine ⟨"سعر البيع أقل من التكلفة المتغيرة", ?_⟩
    unfold calculate_break_even
    rw [if_pos (by linarith : p - vc ≤ 0)]
  · intro h
    have hpos : ¬ (p - vc ≤ 0) := by linarith
    refine ⟨{ break_even_units := round2 (fc / (p - vc))
              break_even_revenue := round2 (fc / (p - vc) * p)
              contribution_margin := round2 (p - vc)
              margin_of_safety_units := eu - fc / (p - vc)
              margin_of_safety_percentage :=
                if eu > 0 then round2 ((eu - fc / (p - vc)) / eu * 100) else 0 },
      ?_, rfl, round2_sub_le (fc / (p - vc)),
      round2_nonneg (div_nonneg hfc (by linarith))⟩
    unfold calculate_break_even
    rw [if_neg hpos]
  · intro h
    unfold analyze_scenario_break_even
    rw [if_pos (by linarith : p - vc > 0)]
  · intro h
    unfold analyze_scenario_break_even
    rw [if_neg (by linarith : ¬ (p - vc > 0))]

/-- Witness for the amended C8 at `vc = 10`, `fc = 100`, `eu = 50`:
price 5 yields an error from the CMA model and `inf` from the advanced model;
price 30 yields `break_even_units = 5`. -/
theorem break_even_behavior_witness :
    (0:ℚ) ≤ 100 ∧ (5:ℚ) ≤ 10 ∧ (10:ℚ) < 30 ∧
    (∃ msg, calculate_break_even 10 100 50 5 = .error msg) ∧
    analyze_scenario_break_even 100 10 5 = .inf ∧
    (∃ r, calculate_break_even 10 100 50 30 = .ok r ∧
      r.break_even_units = round2 (100 / (30 - 10)) ∧
      |r.break_even_units - 100 / (30 - 10)| ≤ 1/200 ∧
      0 ≤ r.break_even_units) ∧
    analyze_scenario_break_even 100 10 30 = .finite (100 / (30 - 10)) := by
  refine ⟨by norm_num, by norm_num, by norm_num,
    (break_even_behavior 10 100 50 5 (by norm_num)).1 (by norm_num),
    (break_even_behavior 10 100 50 5 (by norm_num)).2.2.2 (by norm_num),
    (break_even_behavior 10 100 50 30 (by norm_num)).2.1 (by norm_num),
    (break_even_behavior 10 100 50 30 (by norm_num)).2.2.1 (by norm_num)⟩

/-! ## P&L ledger rows and cost extraction -/

/-- One row of the P&L ledger table.  `amount` is the `Amount` column read by
`FinancialEngine.load_pl_costs`; `net_amount` is the `net_amount` column read
by the unified engine (its `net_amount_clean` string-cleaning step is modelled
as the identity on already-numeric amounts). -/
structure PnlRow where
  account_level_1 : String
  account_level_2 : String
  amount : ℚ
  net_amount : ℚ
deriving Repr, DecidableEq

/-- The dict returned by `FinancialEngine.load_pl_costs`
(src/financial_engine.py, lines 31-90). -/
structure PlCosts where
  fulfillment_total : ℚ
  storage_total : ℚ
  shipping_total : ℚ
  overhead_total : ℚ
  total_monthly_expense : ℚ
  order_count : ℕ
  fulfillment_cost_per_order : ℚ
  storage_cost_per_order : ℚ
  shipping_cost_per_order : ℚ
  overhead_cost_per_order : ℚ
deriving Repr, DecidableEq

/-- Embedding of `FinancialEngine.load_pl_costs`: sums the `Amount` of rows whose
`Account Level 2` matches each category alternation case-insensitively,
takes absolute values, and divides by the assumed `order_count = 10000`. -/
def load_pl_costs (pl : List PnlRow) : PlCosts :=
  let fulfillment_expense :=
    ((pl.filter (fun r => matchesAny r.account_level_2 ["تجهيز", "Fulfillment"])).map
      (fun r => r.amount)).sum
  let storage_expense :=
    ((pl.filter (fun r => matchesAny r.account_level_2 ["تخزين", "Storage", "Warehouse"])).map
      (fun r => r.amount)).sum
  let shipping_expense :=
    ((pl.filter (fun r => matchesAny r.account_level_2 ["شحن", "Shipping", "Delivery"])).map
      (fun r => r.amount)).sum
  let overhead_expense :=
    ((pl.filter (fun r =>
      matchesAny r.account_level_2 ["عمومية", "إدارية", "Overhead", "Admin"])).map
      (fun r => r.amount)).sum
  let total_expense := |((pl.filter (fun r => decide (r.amount < 0))).map (fun r => r.amount)).sum|
  let order_count : ℕ := 10000
  { fulfillment_total := |fulfillment_expense|
    storage_total := |storage_expense|
    shipping_total := |shipping_expense|
    overhead_total := |overhead_expense|
    total_monthly_expense := total_expense
    order_count := order_count
    fulfillment_cost_per_order := if 0 < order_count then |fulfillment_expense| / order_count else 0
    storage_cost_per_order := if 0 < order_count then |storage_expense| / order_count else 0
    shipping_cost_per_order := if 0 < order_count then |shipping_expense| / order_count else 0
    overhead_cost_per_order := if 0 < order_count then |overhead_expense| / order_count else 0 }

/-- The dict returned by `UnifiedPricingEngine._calculate_margins_from_pnl`
(src/unified_pricing_engine.py, lines 537-560).  The source never stores a
`total_orders` key, but `generate_quote` reads it with `.get`; the field is
kept as an `Option` that `_calculate_margins_from_pnl` leaves empty. -/
structure ProfitMargins where
  historical_margin : ℚ
  total_income : ℚ
  total_expense : ℚ
  net_profit : ℚ
  total_orders : Option ℕ
deriving Repr, DecidableEq

/-- Embedding of `UnifiedPricingEngine._calculate_margins_from_pnl`: absolute sums of
`net_amount` over rows whose `Account Level 1` contains `income` / `expense`
case-insensitively; margin defaults to 20 when there is no income. -/
def _calculate_margins_from_pnl (pnl : List PnlRow) : ProfitMargins :=
  let total_income :=
    |((pnl.filter (fun r => containsSub r.account_level_1 "income")).map
      (fun r => r.net_amount)).sum|
  let total_expense :=
    |((pnl.filter (fun r => containsSub r.account_level_1 "expense")).map
      (fun r => r.net_amount)).sum|
  let margin := if 0 < total_income then (total_income - total_expense) / total_income * 100 else 20
  { historical_margin := max 0 margin
    total_income := total_income
    total_expense := total_expense
    net_profit := total_income - total_expense
    total_orders := none }

/-! ## UnifiedPricingEngine.calculate_advanced_cost_allocation
(src/unified_pricing_engine.py, lines 402-535) -/

/-- One row of the result table built by `calculate_advanced_cost_allocation`. -/
structure AllocationRow where
  capacity_per_month : ℚ
  monthly_cost_before_gna : ℚ
  gna_allocation : ℚ
  monthly_cost_after_gna : ℚ
  orders_per_month : ℕ
  cost_per_order : ℚ
deriving Repr, DecidableEq

/-- The `service_costs_map` of `calculate_advanced_cost_allocation`: row index
0 ↦ fulfillment cost, 1 ↦ shipping, 2 ↦ storage, 3 and 4 ↦ 0 (manual
services).  pandas maps indices ≥ 5 to NaN; the theorems below therefore only
consider capacity tables of at most five rows. -/
def service_costs_map (cost_fulfillment cost_shipping cost_storage : ℚ) (i : ℕ) : ℚ :=
  if i = 0 then cost_fulfillment
  else if i = 1 then cost_shipping
  else if i = 2 then cost_storage
  else 0

/-- Embedding of `UnifiedPricingEngine.calculate_advanced_cost_allocation`: extracts the
category costs from the P&L, allocates G&A proportionally to capacity
(`gna_alloc = capacity / total_capacity * cost_gna` when the total is
positive, else 0), adds it to the per-index direct cost, and divides by the
order count — `cost_per_order = monthly_cost_after_gna / orders_count if
orders_count > 0 else 0`. -/
def calculate_advanced_cost_allocation (pnl : List PnlRow) (capacities : List ℚ)
    (orders_count : ℕ) : List AllocationRow :=
  let cost_fulfillment :=
    |((pnl.filter (fun r => containsSub r.account_level_2 "تجهيز")).map
      (fun r => r.net_amount)).sum|
  let cost_shipping :=
    |((pnl.filter (fun r => containsSub r.account_level_2 "شحن")).map
      (fun r => r.net_amount)).sum|
  let cost_storage :=
    |((pnl.filter (fun r => containsSub r.account_level_2 "تخزين")).map
      (fun r => r.net_amount)).sum|
  let cost_gna :=
    |((pnl.filter (fun r => matchesAny r.account_level_2 ["عمومية", "إدارية", "اداريه"])).map
      (fun r => r.net_amount)).sum|
  let total_capacity := capacities.sum
  capacities.enum.map (fun p =>
    let gna_alloc := if total_capacity > 0 then p.2 / total_capacity * cost_gna else 0
    let before := service_costs_map cost_fulfillment cost_shipping cost_storage p.1
    let after := before + gna_alloc
    { capacity_per_month := p.2
      monthly_cost_before_gna := before
      gna_allocation := gna_alloc
      monthly_cost_after_gna := after
      orders_per_month := orders_count
      cost_per_order := if 0 < orders_count then after / orders_count else 0 })

/-! ## UnifiedPricingEngine.generate_quote (src/unified_pricing_engine.py, lines 926-1023) -/

/-- The `cost_breakdown` dict of a quote from `generate_quote`. -/
structure QuoteCostBreakdown where
  cost_per_order : ℚ
  shipping_cost : ℚ
  fulfillment_cost : ℚ
  packaging_cost : ℚ
  overhead_cost : ℚ
  target_margin : ℚ
  profit_per_order : ℚ
deriving Repr, DecidableEq

/-- The quote dict of `generate_quote` (customer name, service type and
timestamp strings are irrelevant to the claims and omitted). -/
structure SmartQuote where
  tier : String
  monthly_volume : ℕ
  price : ℚ
  cost_breakdown : QuoteCostBreakdown
deriving Repr, DecidableEq

/-- Embedding of `UnifiedPricingEngine.generate_quote` as a function of the engine state it
reads: `self.profit_margins` (`none` models the initial empty dict),
`len(self.orders_data)` (`orders_count`, 0 when absent or empty) and the
requested monthly volume.  Mirrors the volume-tier table, the historical
cost-per-order derivation (falling back to an assumed 10000 orders and then
to tier defaults when `cost_per_order == 0 or cost_per_order > 100`), the
clamped target margin, and the final `cost / (1 - margin)` price. -/
def generate_quote (pm : Option ProfitMargins) (orders_count : ℕ)
    (monthly_volume : ℕ) : SmartQuote :=
  let base_tier : ℚ × String :=
    if monthly_volume ≤ 1000 then (25, "Standard")
    else if monthly_volume ≤ 5000 then (22, "Professional")
    else if monthly_volume ≤ 15000 then (19, "Business")
    else (16, "Enterprise")
  let cost_from_pnl : ℚ :=
    match pm with
    | none => 0
    | some m =>
      if m.total_expense = 0 then 0
      else
        let total_expense := |m.total_expense|
        if 0 < orders_count then total_expense / orders_count
        else
          match m.total_orders with
          | some t => if 0 < t then total_expense / t else total_expense / 10000
          | none => total_expense / 10000
  let cost_per_order : ℚ :=
    if cost_from_pnl = 0 ∨ 100 < cost_from_pnl then
      if monthly_volume ≤ 1000 then 15
      else if monthly_volume ≤ 5000 then 12
      else if monthly_volume ≤ 15000 then 10
      else 8
    else cost_from_pnl
  let target_margin : ℚ :=
    match pm with
    | none => 25/100
    | some m =>
      if m.historical_margin = 0 then 25/100
      else max (20/100) (min (35/100) (m.historical_margin / 100))
  let final_price := cost_per_order / (1 - target_margin)
  { tier := base_tier.2
    monthly_volume := monthly_volume
    price := round2 final_price
    cost_breakdown :=
      { cost_per_order := round2 cost_per_order
        shipping_cost := round2 (cost_per_order * (40/100))
        fulfillment_cost := round2 (cost_per_order * (35/100))
        packaging_cost := round2 (cost_per_order * (15/100))
        overhead_cost := round2 (cost_per_order * (10/100))
        target_margin := round1 (target_margin * 100)
        profit_per_order := round2 (final_price - cost_per_order) } }

/-- C2 counterexample data: a P&L whose only entry is a G&A expense of −1000. -/
def c2_pnl : List PnlRow :=
  [{ account_level_1 := "Expense", account_level_2 := "مصاريف عمومية وإدارية",
     amount := -1000, net_amount := -1000 }]

/-- C2 counterexample: with an observed order count of 0, the cost-allocation
engine does not signal any error — for the capacity table `[100, 200, 100]`
it returns a normal result table whose `cost_per_order` is 0 in every row
(while the G&A allocation `[250, 500, 250]` shows the computation did run). -/
theorem zero_orders_returns_zero_counterexample :
    (calculate_advanced_cost_allocation c2_pnl [100, 200, 100] 0).map
      (fun r => r.cost_per_order) = [0, 0, 0] ∧
    (calculate_advanced_cost_allocation c2_pnl [100, 200, 100] 0).map
      (fun r => r.gna_allocation) = [250, 500, 250] := by
  have h1 : c2_pnl.filter (fun r => containsSub r.account_level_2 "تجهيز") = [] := by decide
  have h2 : c2_pnl.filter (fun r => containsSub r.account_level_2 "شحن") = [] := by decide
  have h3 : c2_pnl.filter (fun r => containsSub r.account_level_2 "تخزين") = [] := by decide
  have h4 : c2_pnl.filter
      (fun r => matchesAny r.account_level_2 ["عمومية", "إدارية", "اداريه"]) = c2_pnl := by
    decide
  simp only [calculate_advanced_cost_allocation, h1, h2, h3, h4]
  norm_num [c2_pnl, List.enum, List.enumFrom, service_costs_map]

/-- C2 as amended: when the observed monthly order count is 0, no
`InsufficientDataError` is signalled anywhere.  `calculate_advanced_cost_allocation`
silently returns `cost_per_order = 0` for every service (the scalar `else 0`
branch of its conditional), and `generate_quote` with no usable P&L data
silently substitutes the volume-tier default cost (15 for a monthly volume
≤ 1000) instead of failing. -/
theorem zero_orders_cost_behavior (pnl : List PnlRow) (caps : List ℚ)
    (hlen : caps.length ≤ 5) (mv : ℕ) (hmv : mv ≤ 1000) :
    (∀ row ∈ calculate_advanced_cost_allocation pnl caps 0, row.cost_per_order = 0) ∧
    (generate_quote none 0 mv).cost_breakdown.cost_per_order = 15 := by
  constructor
  · intro row hrow
    simp only [calculate_advanced_cost_allocation, List.mem_map] at hrow
    obtain ⟨p, hp, rfl⟩ := hrow
    simp
  · simp only [generate_quote]
    rw [if_pos (Or.inl trivial), if_pos hmv]
    norm_num [round2, roundHalfEven]

/-- Witness for the amended C2: the empty P&L with capacities `[100, 200]`
and a requested volume of 500. -/
theorem zero_orders_cost_behavior_witness :
    ([100, 200] : List ℚ).length ≤ 5 ∧ (500 : ℕ) ≤ 1000 ∧
    (∀ row ∈ calculate_advanced_cost_allocation [] [100, 200] 0, row.cost_per_order = 0) ∧
    (generate_quote none 0 500).cost_breakdown.cost_per_order = 15 :=
  ⟨by norm_num, by norm_num,
   (zero_orders_cost_behavior [] [100, 200] (by norm_num) 500 (by norm_num)).1,
   (zero_orders_cost_behavior [] [100, 200] (by norm_num) 500 (by norm_num)).2⟩

/-! ## The C9 end-to-end ledger scenario -/

/-- C9 scenario data: a ledger whose expense entries match the "shipping"
category and sum to −60000. -/
def c9_ledger : List PnlRow :=
  [{ account_level_1 := "Expense", account_level_2 := "Shipping - last mile",
     amount := -20000, net_amount := -20000 },
   { account_level_1 := "Expense", account_level_2 := "Shipping fees",
     amount := -25000, net_amount := -25000 },
   { account_level_1 := "Expense", account_level_2 := "مصاريف شحن Delivery",
     amount := -15000, net_amount := -15000 }]

theorem c9_filter_shipping : c9_ledger.filter
    (fun r => matchesAny r.account_level_2 ["شحن", "Shipping", "Delivery"]) = c9_ledger := by
  decide

theorem c9_filter_expense : c9_ledger.filter
    (fun r => containsSub r.account_level_1 "expense") = c9_ledger := by
  decide

theorem c9_filter_income : c9_ledger.filter
    (fun r => containsSub r.account_level_1 "income") = ([] : List PnlRow) := by
  decide

theorem c9_margins_eval : _calculate_margins_from_pnl c9_ledger =
    { historical_margin := 20, total_income := 0, total_expense := 60000,
      net_profit := -60000, total_orders := none } := by
  simp only [_calculate_margins_from_pnl, c9_filter_expense, c9_filter_income]
  norm_num [c9_ledger]

/-- C9: for the ledger `c9_ledger`, whose expense entries matching the
"shipping" category sum to −60000, `load_pl_costs` extracts
`shipping_total = 60000` (the absolute value of the signed sum), and
`generate_quote` with those P&L margins and 1500 observed historical orders
derives `cost_per_order = 60000 / 1500 = 40` — the total expense divided by
the observed order count, not by the assumed 10000. -/
theorem c9_shipping_scenario :
    (load_pl_costs c9_ledger).shipping_total = 60000 ∧
    (_calculate_margins_from_pnl c9_ledger).total_expense = 60000 ∧
    (generate_quote (some (_calculate_margins_from_pnl c9_ledger))
      1500 1000).cost_breakdown.cost_per_order = 40 ∧
    (60000 : ℚ) / 1500 = 40 := by
  refine ⟨?_, ?_, ?_, by norm_num⟩
  · simp only [load_pl_costs, c9_filter_shipping]
    norm_num [c9_ledger]
  · rw [c9_margins_eval]
  · rw [c9_margins_eval]
    simp only [generate_quote]
    norm_num [round2, roundHalfEven]

/-! ## SupplierDataProcessor (src/supplier_data_processor.py) -/

/-- One row of the suppliers table (the columns read by
`calculate_shipping_cost`; `supplier.get(col, default)` defaults are modelled
by the columns being present). -/
structure SupplierRow where
  supplier_name : String
  service_type : String
  price_inside_riyadh : ℚ
  price_outside_riyadh : ℚ
  cod_fee : ℚ
  network_fee : ℚ
  weight_limit : ℚ
  extra_kg_price : ℚ
deriving Repr, DecidableEq

/-- The per-supplier cost dict built by `calculate_shipping_cost`. -/
structure ShippingCostDetail where
  base_price : ℚ
  cod_fee : ℚ
  network_fee : ℚ
  weight_fee : ℚ
  total_cost : ℚ
  location : String
deriving Repr, DecidableEq

/-- The loop body of `calculate_shipping_cost` for one supplier row:
COD fee (interpreted as a fraction of the order value when < 1), network fee,
and the extra-weight surcharge above `weight_limit`. -/
def supplier_quote_detail (is_riyadh : Bool) (weight order_value : ℚ) (is_cod : Bool)
    (s : SupplierRow) : ShippingCostDetail :=
  let base_price := if is_riyadh then s.price_inside_riyadh else s.price_outside_riyadh
  let cod_fee := if is_cod then (if s.cod_fee < 1 then order_value * s.cod_fee else s.cod_fee)
                 else 0
  let network_fee := s.network_fee
  let weight_fee := if s.weight_limit < weight then (weight - s.weight_limit) * s.extra_kg_price
                    else 0
  { base_price := base_price
    cod_fee := cod_fee
    network_fee := network_fee
    weight_fee := weight_fee
    total_cost := base_price + cod_fee + network_fee + weight_fee
    location := if is_riyadh then "داخل الرياض" else "خارج الرياض" }

/-- Assignment `results[key] = value` on a Python dict modelled as an
association list: an existing key keeps its position and gets the new value,
a new key is appended. -/
def upsert (l : List (String × ShippingCostDetail)) (k : String) (v : ShippingCostDetail) :
    List (String × ShippingCostDetail) :=
  if l.any (fun q => q.1 = k) then l.map (fun q => if q.1 = k then (k, v) else q)
  else l ++ [(k, v)]

/-- Embedding of `SupplierDataProcessor.calculate_shipping_cost` (lines 57-133): filters the
table to `service_type == 'shipping'`, determines the region from the city
(`'رياض' in str(city).lower()`), skips suppliers whose rate for that region is
0, and builds the results dict in row order. -/
def calculate_shipping_cost (suppliers : List SupplierRow) (city : String)
    (weight order_value : ℚ) (is_cod : Bool) : List (String × ShippingCostDetail) :=
  if suppliers.isEmpty then []
  else
    let shipping_suppliers := suppliers.filter (fun s => s.service_type = "shipping")
    if shipping_suppliers.isEmpty then []
    else
      let is_riyadh := containsSub city "رياض"
      shipping_suppliers.foldl (fun results s =>
        if (if is_riyadh then s.price_inside_riyadh else s.price_outside_riyadh) = 0 then
          results
        else
          upsert results s.supplier_name
            (supplier_quote_detail is_riyadh weight order_value is_cod s)) []

/-- Embedding of `SupplierDataProcessor.get_best_shipping_supplier` (lines 135-168): sorts
the results dict by `total_cost` with Python's stable `sorted` (modelled by
the stable `List.insertionSort`) and returns the first entry, or `None` when
there is nothing to compare. -/
def get_best_shipping_supplier (suppliers : List SupplierRow) (city : String)
    (weight order_value : ℚ) (is_cod : Bool) : Option (String × ShippingCostDetail) :=
  let all_costs := calculate_shipping_cost suppliers city weight order_value is_cod
  if all_costs.isEmpty then none
  else (List.insertionSort (fun a b => a.2.total_cost ≤ b.2.total_cost) all_costs).head?

theorem mem_upsert {p : String × ShippingCostDetail} {l k v} (h : p ∈ upsert l k v) :
    p ∈ l ∨ p = (k, v) := by
  unfold upsert at h
  split_ifs at h with hany
  · rw [List.mem_map] at h
    obtain ⟨q, hq, hpq⟩ := h
    by_cases hk : q.1 = k
    · rw [if_pos hk] at hpq
      exact Or.inr hpq.symm
    · rw [if_neg hk] at hpq
      exact Or.inl (hpq ▸ hq)
  · rw [List.mem_append, List.mem_singleton] at h
    exact h

theorem mem_foldl_upsert (is_riyadh : Bool) (weight order_value : ℚ) (is_cod : Bool)
    (P : String × ShippingCostDetail → Prop) :
    ∀ (l : List SupplierRow), (∀ s ∈ l,
        (if is_riyadh then s.price_inside_riyadh else s.price_outside_riyadh) ≠ 0 →
        P (s.supplier_name, supplier_quote_detail is_riyadh weight order_value is_cod s)) →
      ∀ acc, (∀ p ∈ acc, P p) →
        ∀ p ∈ l.foldl (fun results s =>
            if (if is_riyadh then s.price_inside_riyadh else s.price_outside_riyadh) = 0 then
              results
            else
              upsert results s.supplier_name
                (supplier_quote_detail is_riyadh weight order_value is_cod s)) acc, P p := by
  intro l
  induction l with
  | nil => intro _ acc hacc p hp; exact hacc p hp
  | cons s t ih =>
    intro hl acc hacc p hp
    rw [List.foldl_cons] at hp
    refine ih (fun x hx => hl x (List.mem_cons_of_mem s hx)) _ ?_ p hp
    intro q hq
    by_cases hrate : (if is_riyadh then s.price_inside_riyadh else s.price_outside_riyadh) = 0
    · rw [if_pos hrate] at hq
      exact hacc q hq
    · rw [if_neg hrate] at hq
      rcases mem_upsert hq with hmem | rfl
      · exact hacc q hmem
      · exact hl s (List.mem_cons_self s t) hrate

/-- Every entry the comparator considers comes from a supplier row of the
table with `service_type = "shipping"` and a non-zero rate for the requested
region, and carries exactly that row's computed cost components. -/
theorem calculate_shipping_cost_eligible (suppliers : List SupplierRow) (city : String)
    (weight order_value : ℚ) (is_cod : Bool) :
    ∀ p ∈ calculate_shipping_cost suppliers city weight order_value is_cod,
      ∃ s ∈ suppliers, s.service_type = "shipping" ∧
        (if containsSub city "رياض" then s.price_inside_riyadh else s.price_outside_riyadh) ≠ 0 ∧
        p = (s.supplier_name,
             supplier_quote_detail (containsSub city "رياض") weight order_value is_cod s) := by
  intro p hp
  simp only [calculate_shipping_cost] at hp
  by_cases h1 : suppliers.isEmpty
  · rw [if_pos h1] at hp; exact absurd hp (List.not_mem_nil p)
  rw [if_neg h1] at hp
  by_cases h2 : (suppliers.filter (fun s => s.service_type = "shipping")).isEmpty
  · rw [if_pos h2] at hp; exact absurd hp (List.not_mem_nil p)
  rw [if_neg h2] at hp
  refine mem_foldl_upsert (containsSub city "رياض") weight order_value is_cod
    (fun q => ∃ s ∈ suppliers, s.service_type = "shipping" ∧
      (if containsSub city "رياض" then s.price_inside_riyadh else s.price_outside_riyadh) ≠ 0 ∧
      q = (s.supplier_name,
           supplier_quote_detail (containsSub city "رياض") weight order_value is_cod s))
    (suppliers.filter (fun s => s.service_type = "shipping")) ?_ [] (by simp) p hp
  intro s hs hrate
  rw [List.mem_filter] at hs
  exact ⟨s, hs.1, by simpa using hs.2, hrate, rfl⟩

/-- C7 as amended: whenever `get_best_shipping_supplier` returns a supplier,
that supplier is one of the compared entries and achieves the minimum
`total_cost` among all of them, and every compared entry stems from a
shipping supplier with a non-zero rate for the requested region (zero-rate
suppliers are excluded, not treated as free).  Ties between equal costs are
broken by position in the supplier table — the stable sort keeps the
earlier-inserted entry first (see the counterexample) — not by supplier name;
the function is deterministic in its inputs. -/
theorem get_best_shipping_supplier_minimal (suppliers : List SupplierRow) (city : String)
    (weight order_value : ℚ) (is_cod : Bool) (r : String × ShippingCostDetail)
    (h : get_best_shipping_supplier suppliers city weight order_value is_cod = some r) :
    r ∈ calculate_shipping_cost suppliers city weight order_value is_cod ∧
    (∀ p ∈ calculate_shipping_cost suppliers city weight order_value is_cod,
      r.2.total_cost ≤ p.2.total_cost) ∧
    (∃ s ∈ suppliers, s.service_type = "shipping" ∧
      (if containsSub city "رياض" then s.price_inside_riyadh else s.price_outside_riyadh) ≠ 0 ∧
      r = (s.supplier_name,
           supplier_quote_detail (containsSub city "رياض") weight order_value is_cod s)) := by
  simp only [get_best_shipping_supplier] at h
  by_cases hemp : (calculate_shipping_cost suppliers city weight order_value is_cod).isEmpty
  · rw [if_pos hemp] at h; exact absurd h (by simp)
  · rw [if_neg hemp] at h
    set rel : (String × ShippingCostDetail) → (String × ShippingCostDetail) → Prop :=
      fun a b => a.2.total_cost ≤ b.2.total_cost with hrel
    haveI : IsTotal (String × ShippingCostDetail) rel := ⟨fun a b => le_total _ _⟩
    haveI : IsTrans (String × ShippingCostDetail) rel := ⟨fun a b c => le_trans⟩
    have hsorted := List.sorted_insertionSort rel
      (calculate_shipping_cost suppliers city weight order_value is_cod)
    have hperm := List.perm_insertionSort rel
      (calculate_shipping_cost suppliers city weight order_value is_cod)
    rcases hsort : List.insertionSort rel
        (calculate_shipping_cost suppliers city weight order_value is_cod) with _ | ⟨a, t⟩
    · rw [hsort] at h; exact absurd h (by simp)
    · rw [hsort] at h
      simp only [List.head?_cons, Option.some.injEq] at h
      subst h
      rw [hsort] at hsorted hperm
      have hmem : a ∈ calculate_shipping_cost suppliers city weight order_value is_cod :=
        hperm.mem_iff.mp (List.mem_cons_self a t)
      refine ⟨hmem, ?_, calculate_shipping_cost_eligible suppliers city weight order_value
        is_cod a hmem⟩
      intro p hp
      rcases List.mem_cons.mp (hperm.mem_iff.mpr hp) with rfl | hpt
      · exact le_refl _
      · exact List.rel_of_sorted_cons hsorted p hpt

/-- C7 counterexample data: two shipping suppliers with identical rates, the
lexicographically larger name "b" in the earlier table row. -/
def c7_suppliers : List SupplierRow :=
  [{ supplier_name := "b", service_type := "shipping", price_inside_riyadh := 10,
     price_outside_riyadh := 12, cod_fee := 0, network_fee := 0, weight_limit := 5,
     extra_kg_price := 0 },
   { supplier_name := "a", service_type := "shipping", price_inside_riyadh := 10,
     price_outside_riyadh := 12, cod_fee := 0, network_fee := 0, weight_limit := 5,
     extra_kg_price := 0 }]

theorem c7_tiebreak_counterexample :
    (get_best_shipping_supplier c7_suppliers "الرياض" 3 100 false).map (fun p => p.1)
      = some "b" ∧
    (calculate_shipping_cost c7_suppliers "الرياض" 3 100 false).map (fun p => p.2.total_cost)
      = [10, 10] ∧
    "a".data < "b".data := by
  have hriyadh : containsSub "الرياض" "رياض" = true := by decide
  have hcalc : calculate_shipping_cost c7_suppliers "الرياض" 3 100 false =
      [("b", { base_price := 10, cod_fee := 0, network_fee := 0, weight_fee := 0,
               total_cost := 10, location := "داخل الرياض" }),
       ("a", { base_price := 10, cod_fee := 0, network_fee := 0, weight_fee := 0,
               total_cost := 10, location := "داخل الرياض" })] := by
    norm_num [calculate_shipping_cost, c7_suppliers, hriyadh, supplier_quote_detail, upsert,
      List.foldl, List.filter]
    decide
  refine ⟨?_, by rw [hcalc]; norm_num, by decide⟩
  simp only [get_best_shipping_supplier, hcalc]
  norm_num [List.insertionSort, List.orderedInsert]

/-- Witness for the amended C7 at the concrete table `c7_suppliers`: the
returned supplier is one of the compared entries and minimal in cost. -/
theorem get_best_shipping_supplier_minimal_witness :
    get_best_shipping_supplier c7_suppliers "الرياض" 3 100 false =
      some ("b", { base_price := 10, cod_fee := 0, network_fee := 0, weight_fee := 0,
                   total_cost := 10, location := "داخل الرياض" }) ∧
    ("b", ({ base_price := 10, cod_fee := 0, network_fee := 0, weight_fee := 0,
             total_cost := 10, location := "داخل الرياض" } : ShippingCostDetail)) ∈
      calculate_shipping_cost c7_suppliers "الرياض" 3 100 false := by
  have hriyadh : containsSub "الرياض" "رياض" = true := by decide
  have hcalc : calculate_shipping_cost c7_suppliers "الرياض" 3 100 false =
      [("b", { base_price := 10, cod_fee := 0, network_fee := 0, weight_fee := 0,
               total_cost := 10, location := "داخل الرياض" }),
       ("a", { base_price := 10, cod_fee := 0, network_fee := 0, weight_fee := 0,
               total_cost := 10, location := "داخل الرياض" })] := by
    norm_num [calculate_shipping_cost, c7_suppliers, hriyadh, supplier_quote_detail, upsert,
      List.foldl, List.filter]
    decide
  have hbest : get_best_shipping_supplier c7_suppliers "الرياض" 3 100 false =
      some ("b", { base_price := 10, cod_fee := 0, network_fee := 0, weight_fee := 0,
                   total_cost := 10, location := "داخل الرياض" }) := by
    simp only [get_best_shipping_supplier, hcalc]
    norm_num [List.insertionSort, List.orderedInsert]
  exact ⟨hbest, (get_best_shipping_supplier_minimal c7_suppliers "الرياض" 3 100 false _ hbest).1⟩

/-! ## UnifiedPricingEngine.calculate_comprehensive_price
(src/unified_pricing_engine.py, lines 725-924) -/

/-- One row of the `pricing_tiers` table. -/
structure TierRow where
  service_key : String
  min_volume : ℚ
  max_volume : ℚ
  unit_price : ℚ
deriving Repr, DecidableEq

/-- One entry of `self.service_stats` (from `_calculate_service_stats_from_pnl`). -/
structure ServiceStat where
  avg : ℚ
  max : ℚ
  min : ℚ
  count : ℕ
deriving Repr, DecidableEq

/-- One entry of `self.regional_analysis` (from `_analyze_regional_patterns`). -/
structure RegionalStat where
  order_count : ℕ
  avg_order_value : ℚ
  avg_shipping_cost : ℚ
  avg_weight : ℚ
deriving Repr, DecidableEq

/-- One entry of `self.customer_profitability`
(from `_analyze_customer_profitability`). -/
structure CustomerProfit where
  income : ℚ
  expense : ℚ
  profit : ℚ
  margin : ℚ
  tier : String
deriving Repr, DecidableEq

/-- The engine state read by `calculate_comprehensive_price`: the integrated
data tables and derived caches of a `UnifiedPricingEngine` instance.
`none` / `[]` model an absent table or an empty dict. -/
structure EngineState where
  pricing_tiers : Option (List TierRow)
  service_stats : List (String × ServiceStat)
  profit_margins : Option ProfitMargins
  customer_profitability : List (String × CustomerProfit)
  suppliers_data : List SupplierRow
  regional_analysis : List (String × RegionalStat)

/-- The `service_map` dict of `_get_base_price_from_capacity` with its
`.get(service_type, 'preparation_team')` default. -/
def service_map (service_type : String) : String :=
  if service_type = "ايراد التجهيز" then "preparation_team"
  else if service_type = "ايراد الشحن" then "shipping_cost"
  else if service_type = "ايراد التخزين" then "storage_fee"
  else if service_type = "ايراد الاستلام" then "receiving_service"
  else "preparation_team"

/-- The `pnl_service_map` dict with its `.get(service_type, 'processing')`
default. -/
def pnl_service_map (service_type : String) : String :=
  if service_type = "ايراد التجهيز" then "processing"
  else if service_type = "ايراد الشحن" then "shipping"
  else if service_type = "ايراد التخزين" then "storage"
  else if service_type = "ايراد الاستلام" then "receiving"
  else "processing"

/-- Embedding of `UnifiedPricingEngine._get_base_price_from_capacity` (lines 808-849):
first the matching volume tier of `pricing_tiers`, then the P&L service
average, then the default `100 * quantity`. -/
def _get_base_price_from_capacity (st : EngineState) (service_type : String)
    (quantity : ℚ) : ℚ :=
  let from_tiers : Option ℚ :=
    match st.pricing_tiers with
    | none => none
    | some tiers =>
      if tiers.isEmpty then none
      else
        let service_key := service_map service_type
        let service_prices := tiers.filter (fun t => t.service_key = service_key)
        if service_prices.isEmpty then none
        else
          match (service_prices.filter
              (fun t => t.min_volume ≤ quantity ∧ quantity ≤ t.max_volume)).head? with
          | some t => some (t.unit_price * quantity)
          | none => none
  match from_tiers with
  | some p => p
  | none =>
    match st.service_stats.find? (fun p => p.1 = pnl_service_map service_type) with
    | some p => p.2.avg * quantity
    | none => 100 * quantity

/-- Embedding of `UnifiedPricingEngine._get_pnl_adjustment` (lines 851-858): returns 0 when
`profit_margins` is empty, and — after computing an unused target margin —
returns 0 otherwise as well ("computed in the base price"). -/
def _get_pnl_adjustment (st : EngineState) (service_type : String) : ℚ :=
  match st.profit_margins with
  | none => 0
  | some pm =>
    let target_margin := max 20 pm.historical_margin
    0

/-- Embedding of `UnifiedPricingEngine._get_customer_discount` (lines 860-874). -/
def _get_customer_discount (st : EngineState) (customer : String) (base_price : ℚ) : ℚ :=
  match st.customer_profitability.find? (fun p => p.1 = customer) with
  | none => 0
  | some p =>
    let rate : ℚ :=
      if p.2.tier = "VIP" then 15/100
      else if p.2.tier = "Premium" then 10/100
      else if p.2.tier = "Good" then 5/100
      else if p.2.tier = "Standard" then 0
      else if p.2.tier = "Loss" then -(20/100)
      else 0
    base_price * rate

/-- Embedding of `UnifiedPricingEngine._calculate_shipping_cost` (lines 876-915): the best
supplier quote with a 25% markup when supplier data exists, else the regional
average adjusted for weight, order value and payment method. -/
def _calculate_shipping_cost (st : EngineState) (city : String) (weight order_value : ℚ)
    (payment_method : String) : ℚ :=
  let from_suppliers : Option ℚ :=
    if st.suppliers_data.isEmpty then none
    else
      match get_best_shipping_supplier st.suppliers_data city weight order_value
          (payment_method = "POSTPAID") with
      | some best => some (round2 (best.2.total_cost * (125/100)))
      | none => none
  match from_suppliers with
  | some p => p
  | none =>
    let base_cost :=
      match st.regional_analysis.find? (fun p => p.1 = city) with
      | some p =>
        let weight_factor := max (1/2) (min 2 (weight / max p.2.avg_weight (1/2)))
        p.2.avg_shipping_cost * weight_factor
      | none => 25
    let base_cost := if 500 < order_value then base_cost * (8/10)
                     else if 200 < order_value then base_cost * (9/10)
                     else base_cost
    let base_cost := if payment_method = "PREPAID" then base_cost * (9/10) else base_cost
    round2 (base_cost * (125/100))

/-- Embedding of `UnifiedPricingEngine._calculate_additional_costs` (lines 917-924). -/
def _calculate_additional_costs (weight : ℚ) (payment_method : String)
    (order_value : ℚ) : ℚ :=
  let cod_fee := if payment_method = "POSTPAID" then 1652/100 else 0
  let packaging := max 5 (weight * 2)
  let handling : ℚ := 3
  let insurance := if 1000 < order_value then order_value * (1/100) else 0
  round2 (cod_fee + packaging + handling + insurance)

/-- The urgency levels accepted by `calculate_comprehensive_price` (any other
key raises a `KeyError` in the source). -/
inductive Urgency where
  | low
  | normal
  | high
  | urgent
deriving Repr, DecidableEq

/-- The `{'low': 0.9, 'normal': 1.0, 'high': 1.3, 'urgent': 1.5}` multiplier. -/
def urgency_multiplier_of : Urgency → ℚ
  | .low => 9/10
  | .normal => 1
  | .high => 13/10
  | .urgent => 3/2

/-- The `result['breakdown']` dict of `calculate_comprehensive_price`; the
`customer_discount` and `shipping` keys exist only when their branches ran. -/
structure CompPriceBreakdown where
  base_service : ℚ
  pnl_adjustment : ℚ
  customer_discount : Option ℚ
  shipping : Option ℚ
  additional : ℚ
deriving Repr, DecidableEq

/-- The result dict of `calculate_comprehensive_price`. -/
structure CompPriceResult where
  service_type : String
  quantity : ℚ
  breakdown : CompPriceBreakdown
  customer_tier : Option String
  subtotal : ℚ
  service_total : ℚ
  grand_total : ℚ
  urgency_multiplier : ℚ
deriving Repr, DecidableEq

/-- Embedding of `UnifiedPricingEngine.calculate_comprehensive_price` (lines 725-806).
Python truthiness of the optional arguments (`if customer and customer in
self.customer_profitability`, `if city and weight`, `weight or 1.0`) is
modelled explicitly on the `Option` values. -/
def calculate_comprehensive_price (st : EngineState) (service_type : String) (quantity : ℚ)
    (customer : Option String) (city : Option String) (weight : Option ℚ)
    (order_value : ℚ) (payment_method : String) (urgency : Urgency) : CompPriceResult :=
  let base_price := _get_base_price_from_capacity st service_type quantity
  let pnl_adjustment := _get_pnl_adjustment st service_type
  let customer_known : Option String :=
    match customer with
    | some cu =>
      if cu ≠ "" ∧ st.customer_profitability.any (fun p => p.1 = cu) then some cu else none
    | none => none
  let customer_discount : ℚ :=
    match customer_known with
    | some cu => _get_customer_discount st cu base_price
    | none => 0
  let customer_tier : Option String :=
    match customer_known with
    | some cu => (st.customer_profitability.find? (fun p => p.1 = cu)).map (fun p => p.2.tier)
    | none => none
  let shipping_cost : Option ℚ :=
    match city, weight with
    | some c, some w =>
      if c ≠ "" ∧ w ≠ 0 then some (_calculate_shipping_cost st c w order_value payment_method)
      else none
    | _, _ => none
  let weight_or_one : ℚ :=
    match weight with
    | some w => if w = 0 then 1 else w
    | none => 1
  let additional_costs := _calculate_additional_costs weight_or_one payment_method order_value
  let mult := urgency_multiplier_of urgency
  let subtotal := base_price + pnl_adjustment - customer_discount
  let service_total := subtotal * mult
  let grand_total := service_total +
    (match shipping_cost with | some s => s | none => 0) + additional_costs
  { service_type := service_type
    quantity := quantity
    breakdown :=
      { base_service := base_price
        pnl_adjustment := pnl_adjustment
        customer_discount :=
          match customer_known with | some _ => some customer_discount | none => none
        shipping := shipping_cost
        additional := additional_costs }
    customer_tier := customer_tier
    subtotal := round2 subtotal
    service_total := round2 service_total
    grand_total := round2 grand_total
    urgency_multiplier := mult }

/-- C10: the `pnl_adjustment` component of `calculate_comprehensive_price` is
0 for every engine state and every input — `_get_pnl_adjustment` returns 0
unconditionally — so the subtotal always equals (the rounding of) the base
price minus the customer discount, and the historical P&L margin never
changes the comprehensive price. -/
theorem pnl_adjustment_always_zero (st : EngineState) (service_type : String) (quantity : ℚ)
    (customer : Option String) (city : Option String) (weight : Option ℚ)
    (order_value : ℚ) (payment_method : String) (urgency : Urgency) :
    _get_pnl_adjustment st service_type = 0 ∧
    (calculate_comprehensive_price st service_type quantity customer city weight order_value
      payment_method urgency).breakdown.pnl_adjustment = 0 ∧
    (calculate_comprehensive_price st service_type quantity customer city weight order_value
      payment_method urgency).subtotal =
      round2 ((calculate_comprehensive_price st service_type quantity customer city weight
          order_value payment_method urgency).breakdown.base_service -
        ((calculate_comprehensive_price st service_type quantity customer city weight
          order_value payment_method urgency).breakdown.customer_discount).getD 0) := by
  have hz : _get_pnl_adjustment st service_type = 0 := by
    unfold _get_pnl_adjustment
    cases st.profit_margins <;> rfl
  refine ⟨hz, hz, ?_⟩
  simp only [calculate_comprehensive_price, hz, add_zero]
  cases customer with
  | none => simp
  | some cu =>
    cases hif : (if cu ≠ "" ∧ st.customer_profitability.any (fun p => p.1 = cu) then some cu
        else none) with
    | none => simp [hif]
    | some cv => simp [hif]
